import Mathlib

/-!
Verification development for the email-cleanup agent repository.

The Python sources are shallowly embedded below: pure functions become Lean
functions; network collaborators (the mail-store delete call, the mailbox
count queries, the LLM) are passed in as explicit oracles; Python exceptions
are modelled with `Except`; Python `None` with `Option`; truthiness of an
optional integer with `pyTruthyNat`.  String manipulation is carried out on
`List Char` with structural recursion so every definition reduces in the
kernel.
-/

namespace EmailCleanup

/-- Confidence levels used by every agent and by the arbitration step. -/
inductive Confidence
  | high
  | medium
  | low
deriving DecidableEq, Repr

/-- The classifier's category vocabulary (src/agents/classifier_agent.py). -/
inductive Category
  | urgent
  | personal
  | newsletter
  | promotional
  | informational
  | spam
deriving DecidableEq, Repr

/-- Final arbitration decision (src/core/multi_agent_orchestrator.py). -/
inductive Decision
  | preserve
  | delete
  | review
deriving DecidableEq, Repr

/-- An email record as consumed by the pipeline.  The `receivedDate` field
holds the day number parsed from the date-only prefix of
`receivedDateTime`; `none` models an unparsable date (the Python parser
catches the exception and reports age 0).  Missing string fields are
modelled by `""`, mirroring `email.get(key, '')`. -/
structure Email where
  id : String
  subject : String
  senderAddress : String
  senderName : String
  bodyPreview : String
  hasAttachments : Bool
  isRead : Bool
  receivedDate : Option Int
  inferenceClassification : Option String
deriving DecidableEq, Repr

/-! ### Python-style string primitives (on `List Char`) -/

/-- Substring test on char lists: Python's `pat in s`. -/
def containsSub : List Char → List Char → Bool
  | [], p => p.isEmpty
  | c :: t, p => p.isPrefixOf (c :: t) || containsSub t p

/-- Python `pat in s` for strings (substring containment). -/
def strContains (s pat : String) : Bool :=
  containsSub s.data pat.data

/-- Python `c in s` for a single character. -/
def strHasChar (s : String) (c : Char) : Bool :=
  s.data.contains c

/-- Python `s.lower()` (ASCII case folding suffices for the keyword tables). -/
def lowerStr (s : String) : String :=
  String.mk (s.data.map Char.toLower)

/-- Python `s.strip()`. -/
def trimStr (s : String) : String :=
  String.mk (((s.data.dropWhile Char.isWhitespace).reverse.dropWhile Char.isWhitespace).reverse)

/-- Python `s[:n]` on code points. -/
def pyTake (s : String) (n : Nat) : String :=
  String.mk (s.data.take n)

/-- Split on a single-character separator, Python `s.split(sep)` semantics. -/
def splitOnCharAux (sep : Char) : List Char → List Char → List (List Char)
  | [], acc => [acc.reverse]
  | c :: rest, acc =>
    if c == sep then acc.reverse :: splitOnCharAux sep rest []
    else splitOnCharAux sep rest (c :: acc)

def pySplitOnChar (s : String) (sep : Char) : List String :=
  (splitOnCharAux sep s.data []).map String.mk

/-- Whitespace tokenisation, Python `s.split()` semantics (drops empties).
`fuel` bounds the recursion; it is instantiated with the list length, which
always suffices because every round consumes at least one character. -/
def splitWsAux : Nat → List Char → List (List Char)
  | 0, _ => []
  | fuel + 1, l =>
    match l.dropWhile Char.isWhitespace with
    | [] => []
    | c :: cs =>
      ((c :: cs).takeWhile (fun x => !x.isWhitespace)) ::
        splitWsAux fuel ((c :: cs).dropWhile (fun x => !x.isWhitespace))

def pySplitWs (s : String) : List String :=
  (splitWsAux (s.data.length + 1) s.data).map String.mk

/-- Remove every occurrence of `pat`, Python `s.replace(pat, '')` for a
non-empty pattern.  `fuel` is instantiated with the subject length. -/
def removePatAux (pat : List Char) : Nat → List Char → List Char
  | 0, l => l
  | _ + 1, [] => []
  | fuel + 1, c :: rest =>
    if pat.isPrefixOf (c :: rest) then
      removePatAux pat fuel (List.drop (pat.length - 1) rest)
    else
      c :: removePatAux pat fuel rest

def pyReplaceDel (s pat : String) : String :=
  String.mk (removePatAux pat.data s.data.length s.data)

/-- Value of a non-empty all-digit char list. -/
def digitsVal (cs : List Char) : Option Nat :=
  if cs.isEmpty then none
  else if cs.all Char.isDigit then
    some (cs.foldl (fun a c => a * 10 + (c.toNat - '0'.toNat)) 0)
  else none

/-- Python `int(s)` on a decimal literal with optional sign and surrounding
whitespace; `none` models the `ValueError`. -/
def pyInt (s : String) : Option Int :=
  match (trimStr s).data with
  | [] => none
  | '+' :: rest => (digitsVal rest).map Int.ofNat
  | '-' :: rest => (digitsVal rest).map (fun n => -(n : Int))
  | cs => (digitsVal cs).map Int.ofNat

/-- Python `range(a, b+1)` as a list of integers (empty when `a > b`). -/
def intRange (a b : Int) : List Int :=
  (List.range (b + 1 - a).toNat).map (fun i => a + i)

/-- Insert into a sorted duplicate-free list, keeping it sorted and
duplicate-free. -/
def insertSorted (x : Int) : List Int → List Int
  | [] => [x]
  | y :: ys =>
    if x < y then x :: y :: ys
    else if x = y then y :: ys
    else y :: insertSorted x ys

/-- Python `sorted(list(set(l)))`: the sorted, deduplicated version of `l`. -/
def sortedDedup (l : List Int) : List Int :=
  l.foldr insertSorted []

/-- Python `s.split(maxsplit=1)` restricted to the case the source uses:
`none` when there are fewer than two parts, otherwise the first token and
the remainder (with the separating whitespace removed). -/
def splitMaxsplit1 (s : String) : Option (String × String) :=
  let cs := s.data.dropWhile Char.isWhitespace
  match cs with
  | [] => none
  | _ =>
    let tok := cs.takeWhile (fun c => !c.isWhitespace)
    let rest := (cs.dropWhile (fun c => !c.isWhitespace)).dropWhile Char.isWhitespace
    if rest.isEmpty then none
    else some (String.mk tok, String.mk rest)

/-! ### Telegram bot index parsing (src/telegram_bot/email_cleanup_bot.py) -/

namespace EmailCleanupBot

/-- `EmailCleanupBot.parse_except_command`: strips the `/except` verb, then
parses comma-separated (else whitespace-separated) integers.  The whole body
is wrapped in `try/except` returning `[]`, so any `int()` failure (for
example a range token such as `1-3`) discards the entire input. -/
def parse_except_command (command_text : String) : List Int :=
  let numbers_part := trimStr (pyReplaceDel command_text "/except")
  let parts :=
    if strHasChar numbers_part ',' then pySplitOnChar numbers_part ','
    else pySplitWs numbers_part
  match parts.mapM (fun x => pyInt (trimStr x)) with
  | some indices => indices
  | none => []

/-- `EmailCleanupBot.parse_number_range`: drops the command word, splits the
argument on commas, accepts single integers and inclusive `a-b` ranges
(each malformed part is skipped), and returns the sorted deduplicated
result (Python `sorted(list(set(numbers)))`). -/
def parse_number_range (text : String) : List Int :=
  match splitMaxsplit1 text with
  | none => []
  | some (_, number_text) =>
    let step (numbers : List Int) (part : String) : List Int :=
      let part := trimStr part
      if strHasChar part '-' then
        match pySplitOnChar part '-' with
        | [a, b] =>
          match pyInt (trimStr a), pyInt (trimStr b) with
          | some s, some e => numbers ++ intRange s e
          | _, _ => numbers
        | _ => numbers
      else
        match pyInt part with
        | some n => numbers ++ [n]
        | none => numbers
    sortedDedup ((pySplitOnChar number_text ',').foldl step [])

end EmailCleanupBot

/-- Python `', '.join(l)` style joining. -/
def joinSep (sep : String) : List String → String
  | [] => ""
  | [x] => x
  | x :: y :: xs => x ++ sep ++ joinSep sep (y :: xs)

/-! ### Agent verdict records

Each agent returns a dict; the fields below are the ones read downstream.
Auxiliary fields that are only echoed into log output (matched keyword
lists, the raw `error` string, sender echo) are omitted. -/

/-- Verdict of the document-preservation agent. -/
structure DocResult where
  should_preserve : Bool
  confidence : Confidence
  reasoning : String
  method : String
deriving DecidableEq, Repr

/-- Verdict of the classifier agent. -/
structure ClassifierResult where
  category : Category
  confidence : Confidence
  reasoning : String
  method : String
deriving DecidableEq, Repr

/-- Verdict of the spam-detector agent. -/
structure SpamResult where
  is_spam : Bool
  confidence : Confidence
  spam_score : Nat
  reasoning : String
  method : String
deriving DecidableEq, Repr

/-- Pattern flags found by `UnwantedAgent.check_unwanted_patterns`. -/
structure FoundPatterns where
  newsletter : Bool
  social : Bool
  marketing : Bool
  event : Bool
deriving DecidableEq, Repr

/-- Indicator breakdown collected by `UnwantedAgent.analyze_unwanted`. -/
structure UAIndicators where
  patterns : FoundPatterns
  age_days : Int
  is_unread : Bool
deriving DecidableEq, Repr

/-- Verdict of the unwanted-email agent. -/
structure UnwantedResult where
  is_unwanted : Bool
  confidence : Confidence
  unwanted_score : Nat
  reasoning : String
  method : String
  indicators : UAIndicators
deriving DecidableEq, Repr

/-- Parsed JSON returned by the LLM to the document agent: the fields the
source reads from the model's response.  An `Except.error` models any call
or parse failure (network error, malformed JSON). -/
structure DocAiJson where
  should_preserve : Bool
  confidence : Confidence
  reasoning : String
deriving DecidableEq, Repr

/-- Parsed JSON returned by the LLM to the classifier agent. -/
structure ClassifierAiJson where
  category : Category
  confidence : Confidence
  reasoning : String
deriving DecidableEq, Repr

/-- Parsed JSON returned by the LLM to the spam agent. -/
structure SpamAiJson where
  is_spam : Bool
  confidence : Confidence
  reasoning : String
deriving DecidableEq, Repr

/-- Parsed JSON returned by the LLM to the unwanted agent. -/
structure UnwantedAiJson where
  is_unwanted : Bool
  confidence : Confidence
  reasoning : String
deriving DecidableEq, Repr

/-! ### Document Preservation Agent (src/agents/document_preservation_agent.py) -/

namespace DocumentPreservationAgent

/-- Agent configuration: the VIP allow-list comes from the environment
(`VIP_EMAILS`, already lower-cased by `config/settings.py`); the keyword and
domain tables are the static lists from `__init__`. -/
structure Cfg where
  vip_emails : List String
  important_keywords : List String
  important_domains : List String
deriving Repr

/-- The static `important_keywords` table from `__init__`. -/
def importantKeywordsList : List String :=
  ["payslip", "salary", "wage", "payment advice",
   "invoice", "receipt", "bill", "statement",
   "tax", "hmrc", "p60", "p45", "tax return",
   "contract", "agreement", "offer letter",
   "insurance", "policy", "claim",
   "mortgage", "loan", "credit",
   "pension", "retirement",
   "legal", "court", "solicitor",
   "medical", "prescription", "appointment",
   "passport", "visa", "immigration",
   "degree", "certificate", "transcript"]

/-- The static `important_domains` table from `__init__`. -/
def importantDomainsList : List String :=
  ["gov.uk", "hmrc.gov.uk", "payroll", "hr", "bank", "banking",
   "insurance", "legal", "solicitor"]

/-- `is_vip_sender`: false when the sender is empty or no VIP list is
configured; otherwise membership of the lower-cased, stripped address. -/
def is_vip_sender (cfg : Cfg) (sender_email : String) : Bool :=
  if sender_email = "" ∨ cfg.vip_emails = [] then false
  else cfg.vip_emails.contains (trimStr (lowerStr sender_email))

/-- `contains_important_keywords`: `none` models the bare `False` the source
returns for empty text (its callers unpack a pair, so that value raises a
`TypeError` at the call site); otherwise the matched keywords. -/
def contains_important_keywords (cfg : Cfg) (text : String) : Option (Bool × List String) :=
  if text = "" then none
  else
    let text_lower := lowerStr text
    let found := cfg.important_keywords.filter (fun kw => strContains text_lower kw)
    some (!found.isEmpty, found)

/-- `is_important_sender`: any configured domain occurring in the
lower-cased address. -/
def is_important_sender (cfg : Cfg) (sender_email : String) : Bool :=
  if sender_email = "" then false
  else cfg.important_domains.any (fun d => strContains (lowerStr sender_email) d)

/-- `ai_classification`: LLM fallback tier.  On success the parsed verdict
is tagged `ai_classification`; on any failure the documented fail-safe
default (preserve, low confidence) is returned tagged `error_default`. -/
def ai_classification (_email : Email) (llm : Except String DocAiJson) : DocResult :=
  match llm with
  | .ok j => ⟨j.should_preserve, j.confidence, j.reasoning, "ai_classification"⟩
  | .error _ =>
    ⟨true, .low, "Error in classification - preserving to be safe", "error_default"⟩

/-- `analyze_email`: VIP check first, then keyword / important-sender fast
paths, then the LLM fallback.  The `Except.error` case models the
`TypeError` raised when `contains_important_keywords` returns a bare bool
for an empty subject or body preview. -/
def analyze_email (cfg : Cfg) (email : Email) (llm : Except String DocAiJson) :
    Except String DocResult :=
  let sender_email := email.senderAddress
  if is_vip_sender cfg sender_email then
    .ok ⟨true, .high,
      "🔒 VIP Contact: " ++ email.senderName ++ " (" ++ sender_email ++ ")",
      "vip_contact"⟩
  else
    match contains_important_keywords cfg email.subject,
          contains_important_keywords cfg email.bodyPreview with
    | some (subject_has, subject_matches), some (body_has, body_matches) =>
      let important_sender := is_important_sender cfg sender_email
      if subject_has || (body_has && email.hasAttachments) then
        .ok ⟨true, .high,
          "Contains important keywords: " ++
            joinSep ", " ((subject_matches ++ body_matches).dedup),
          "keyword_match"⟩
      else if important_sender && email.hasAttachments then
        .ok ⟨true, .high,
          "From important sender (" ++ sender_email ++ ") with attachments",
          "important_sender"⟩
      else
        .ok (ai_classification email llm)
    | _, _ => .error "TypeError: cannot unpack non-iterable bool object"

end DocumentPreservationAgent

/-! ### Classifier Agent (src/agents/classifier_agent.py) -/

namespace ClassifierAgent

/-- `_ai_classification`: LLM tier of the classifier.  On failure the
documented fail-safe default is the `informational` category, low
confidence, tagged `error_default`. -/
def ai_classification (_email : Email) (llm : Except String ClassifierAiJson) :
    ClassifierResult :=
  match llm with
  | .ok j => ⟨j.category, j.confidence, j.reasoning, "ai_classification"⟩
  | .error _ =>
    ⟨.informational, .low, "Error in classification - defaulted to informational",
     "error_default"⟩

end ClassifierAgent

/-! ### Spam Detector Agent (src/agents/spam_detector_agent.py) -/

namespace SpamDetectorAgent

/-- Indicator record collected by `detect_spam` and passed to the AI tier. -/
structure SpamIndicators where
  legitimate_sender : Bool
  spam_phrases : List String
  suspicious_sender : Bool
  phishing_indicators : Bool
  phishing_count : Nat
deriving DecidableEq, Repr

/-- The `context_parts` list built inside `_ai_spam_detection`. -/
def contextParts (ind : SpamIndicators) : List String :=
  (if !ind.spam_phrases.isEmpty then
     ["Contains spam phrases: " ++ joinSep ", " (ind.spam_phrases.take 3)] else []) ++
  (if ind.suspicious_sender then ["Suspicious sender pattern detected"] else []) ++
  (if ind.phishing_indicators then
     ["Phishing keywords found (" ++ toString ind.phishing_count ++ ")"] else []) ++
  (if ind.legitimate_sender then ["From known legitimate domain"] else [])

/-- `_ai_spam_detection`: LLM tier for the uncertain score band.  On success
the parsed verdict keeps the pattern score and is tagged
`ai_spam_detection`; on any failure the documented fail-safe default is
`is_spam = (score >= 50)`, low confidence, tagged `error_default`. -/
def ai_spam_detection (_email : Email) (indicators : SpamIndicators) (spam_score : Nat)
    (llm : Except String SpamAiJson) : SpamResult :=
  match llm with
  | .ok j =>
    ⟨j.is_spam, j.confidence, spam_score,
     j.reasoning ++
       (if !(contextParts indicators).isEmpty then
          " [Pattern score: " ++ toString spam_score ++ "]" else ""),
     "ai_spam_detection"⟩
  | .error _ =>
    ⟨decide (spam_score ≥ 50), .low, spam_score,
     "Error in AI classification - defaulted based on score (" ++ toString spam_score ++ ")",
     "error_default"⟩

end SpamDetectorAgent

/-! ### Unwanted Email Agent (src/agents/unwanted_agent.py) -/

namespace UnwantedAgent

/-- The four static keyword tables of `unwanted_patterns` from `__init__`. -/
def newsletterKeywords : List String :=
  ["newsletter", "weekly digest", "monthly update", "unsubscribe",
   "this weeks", "latest news", "whats new"]

def socialKeywords : List String :=
  ["mentioned you", "liked your", "commented on", "tagged you",
   "friend request", "connection request", "viewed your profile"]

def marketingKeywords : List String :=
  ["exclusive offer", "limited time", "dont miss", "last chance",
   "flash sale", "special deal", "save now", "shop now"]

def eventKeywords : List String :=
  ["event reminder", "rsvp", "invitation", "join us",
   "save the date", "register now"]

/-- `check_unwanted_patterns`: scans the lower-cased concatenation of
subject and body preview against the four keyword tables.  The source
breaks out of each scan at the first match; `List.any` computes the same
flag. -/
def check_unwanted_patterns (subject body : String) : FoundPatterns :=
  let text := lowerStr (subject ++ " " ++ body)
  { newsletter := newsletterKeywords.any (fun kw => strContains text kw)
    social := socialKeywords.any (fun kw => strContains text kw)
    marketing := marketingKeywords.any (fun kw => strContains text kw)
    event := eventKeywords.any (fun kw => strContains text kw) }

/-- `calculate_email_age_days`: the source parses the date-only prefix of
the received timestamp and subtracts it from today, degrading to 0 when
parsing fails.  Dates are embedded as day numbers: `received = some d`
models a successfully parsed date, `none` an unparsable one. -/
def calculate_email_age_days (today : Int) (received : Option Int) : Int :=
  match received with
  | some d => today - d
  | none => 0

/-- `calculate_unwanted_score`: weighted sum of the indicators, with the
confidence thresholds 70 (high) and 40 (medium), and the reason strings in
source order. -/
def calculate_unwanted_score (ind : UAIndicators) : Nat × Confidence × List String :=
  let age := ind.age_days
  let score :=
    (if ind.patterns.newsletter then 30 else 0) +
    (if ind.patterns.social then 25 else 0) +
    (if ind.patterns.marketing then 35 else 0) +
    (if ind.patterns.event then 20 else 0) +
    (if age > 730 then 40 else if age > 365 then 25 else if age > 180 then 15 else 0) +
    (if ind.is_unread then 10 else 0)
  let reasons :=
    (if ind.patterns.newsletter then ["Newsletter pattern detected"] else []) ++
    (if ind.patterns.social then ["Social media notification"] else []) ++
    (if ind.patterns.marketing then ["Marketing/promotional content"] else []) ++
    (if ind.patterns.event then ["Event-related email"] else []) ++
    (if age > 730 then
       ["Very old email (" ++ toString age ++ " days / " ++ toString (Int.fdiv age 365) ++ " years)"]
     else if age > 365 then
       ["Old email (" ++ toString age ++ " days / " ++ toString (Int.fdiv age 365) ++ " years)"]
     else if age > 180 then
       ["Aging email (" ++ toString age ++ " days)"]
     else []) ++
    (if ind.is_unread then ["Never opened"] else [])
  let confidence : Confidence :=
    if score ≥ 70 then .high else if score ≥ 40 then .medium else .low
  (score, confidence, reasons)

/-- `_ai_react_reasoning`: LLM tier for the uncertain score band.  On
success the parsed verdict keeps the pattern score and is tagged
`ai_react_reasoning`; on any failure the documented fail-safe default is
`is_unwanted = (score >= 55)`, low confidence, tagged `error_default`. -/
def ai_react_reasoning (_email : Email) (indicators : UAIndicators) (unwanted_score : Nat)
    (reasons : List String) (llm : Except String UnwantedAiJson) : UnwantedResult :=
  match llm with
  | .ok j =>
    ⟨j.is_unwanted, j.confidence, unwanted_score,
     j.reasoning ++
       (if !reasons.isEmpty then
          " [Pattern score: " ++ toString unwanted_score ++ "]" else ""),
     "ai_react_reasoning", indicators⟩
  | .error _ =>
    ⟨decide (unwanted_score ≥ 55), .low, unwanted_score,
     "Error in AI reasoning - defaulted based on score (" ++ toString unwanted_score ++ ")",
     "error_default", indicators⟩

/-- `analyze_unwanted`: collect indicators, score them; score >= 70 yields
an immediate unwanted/high verdict from the pattern tier (no LLM call),
40 <= score < 70 defers to the AI tier, lower scores yield not-unwanted. -/
def analyze_unwanted (today : Int) (email : Email) (llm : Except String UnwantedAiJson) :
    UnwantedResult :=
  let indicators : UAIndicators :=
    { patterns := check_unwanted_patterns email.subject email.bodyPreview
      age_days := calculate_email_age_days today email.receivedDate
      is_unread := !email.isRead }
  let (unwanted_score, _, reasons) := calculate_unwanted_score indicators
  if unwanted_score ≥ 70 then
    ⟨true, .high, unwanted_score, joinSep " | " reasons, "pattern_detection", indicators⟩
  else if 40 ≤ unwanted_score then
    ai_react_reasoning email indicators unwanted_score reasons llm
  else
    ⟨false, .high, unwanted_score, "Email appears relevant and recent",
     "pattern_detection", indicators⟩

end UnwantedAgent

/-! ### Arbitration (src/core/multi_agent_orchestrator.py, `_decision_node`) -/

namespace MultiAgentOrchestrator

/-- Output of the decision node: the final decision, its confidence and the
`reasons` list the source accumulates. -/
structure DecisionOutput where
  final_decision : Decision
  confidence : Confidence
  reasons : List String
deriving DecidableEq, Repr

/-- `str.capitalize()` applied to a category name (used in rule 3's reason). -/
def categoryCapitalized : Category → String
  | .urgent => "Urgent"
  | .personal => "Personal"
  | .newsletter => "Newsletter"
  | .promotional => "Promotional"
  | .informational => "Informational"
  | .spam => "Spam"

/-- `_decision_node`: the judge.  The source initialises
decision/confidence and then overwrites them in an if/elif chain in which
every branch assigns, so the chain below is exhaustive and in source
order. -/
def decision_node (doc : DocResult) (cls : ClassifierResult) (spam : SpamResult)
    (unwanted : UnwantedResult) : DecisionOutput :=
  -- Rule 1: Document Agent says PRESERVE -> Always preserve
  if doc.should_preserve then
    ⟨.preserve, doc.confidence, ["Document Agent: Important document detected"]⟩
  -- Rule 2: Spam detected -> Review
  else if spam.is_spam then
    ⟨.review, spam.confidence,
     ["Spam Detector: Spam/phishing detected (" ++ toString spam.spam_score ++ "/100)"]⟩
  -- Rule 3: Urgent or Personal -> Preserve
  else if cls.category = .urgent ∨ cls.category = .personal then
    ⟨.preserve, cls.confidence,
     ["Classifier: " ++ categoryCapitalized cls.category ++ " email"]⟩
  -- Rule 4: Unwanted + Not important -> Delete (only with high confidence)
  else if unwanted.is_unwanted && !doc.should_preserve then
    if unwanted.confidence = .high ∧
        (cls.category = .newsletter ∨ cls.category = .promotional ∨
         cls.category = .informational) then
      ⟨.delete, .high,
       ["Unwanted Agent: Old unwanted email (" ++ toString unwanted.unwanted_score ++ "/100)"]⟩
    else
      ⟨.review, .medium, ["Unwanted but needs human review"]⟩
  -- Rule 5: Low confidence from any agent -> Review
  else if doc.confidence = .low ∨ cls.confidence = .low ∨
      spam.confidence = .low ∨ unwanted.confidence = .low then
    ⟨.review, .low, ["Low confidence from one or more agents"]⟩
  -- Rule 6: Everything else -> Preserve (safe default)
  else
    ⟨.preserve, .medium, ["No strong indicators for deletion"]⟩

end MultiAgentOrchestrator

/-! ### Backup Manager (src/core/backup_manager.py) -/

namespace BackupManager

/-- One email snapshot inside a backup file (the fields `create_backup`
copies out of the email record). -/
structure BackupEntry where
  id : String
  subject : String
  fromAddr : String
  fromName : String
  receivedDate : Option Int
  bodyPreview : String
  hasAttachments : Bool
  isRead : Bool
  inferenceClassification : String
deriving DecidableEq, Repr

/-- A backup file's contents: `proposal_id`, `email_count` and the
per-email snapshots.  The wall-clock `timestamp` field is not modelled. -/
structure BackupData where
  proposal_id : String
  email_count : Nat
  emails : List BackupEntry
deriving DecidableEq, Repr

/-- The backup directory: one JSON file per proposal id, addressed by that
id; a later write to the same id overwrites the file.  Modelled as an
association list with the newest write first. -/
abbrev BackupStore := List (String × BackupData)

/-- The snapshot `create_backup` takes of one email
(`email.get('inferenceClassification', 'other')`). -/
def backupEntryOf (e : Email) : BackupEntry :=
  ⟨e.id, e.subject, e.senderAddress, e.senderName, e.receivedDate,
   e.bodyPreview, e.hasAttachments, e.isRead,
   e.inferenceClassification.getD "other"⟩

/-- `create_backup`: writes `backup_<proposal_id>.json` in the backup
directory and returns the file path. -/
def create_backup (store : BackupStore) (emails : List Email) (proposal_id : String) :
    String × BackupStore :=
  ("email_backups/backup_" ++ proposal_id ++ ".json",
   (proposal_id, ⟨proposal_id, emails.length, emails.map backupEntryOf⟩) :: store)

/-- `get_backup`: reads the backup for a proposal id back from the
directory, `none` when the file does not exist. -/
def get_backup (store : BackupStore) (proposal_id : String) : Option BackupData :=
  store.lookup proposal_id

end BackupManager

/-! ### Deletion Manager (src/core/deletion_manager.py) -/

namespace DeletionManager

/-- Outcome of one `_delete_single_email` call for a given email id: the
Graph call returned 204 (`ok`); it returned another status or its own
exception handler fired (`fail`, the call returns `False`); or an exception
escaped into `delete_emails`' per-item handler (`raised`). -/
inductive DeleteOutcome
  | ok
  | fail
  | raised (msg : String)
deriving DecidableEq, Repr

/-- One entry of the `errors` list: the failed email's id, its subject
truncated to 50 characters, and the error detail. -/
structure ErrEntry where
  email_id : String
  subject : String
  error : String
deriving DecidableEq, Repr

/-- External collaborators of `delete_emails`: the per-id delete outcome
and the four best-effort mailbox counts.  `none` models every way
`get_inbox_count` yields no number (missing token, non-200 response,
exception). -/
structure MailEnv where
  outcome : String → DeleteOutcome
  otherBefore : Option Nat
  totalBefore : Option Nat
  otherAfter : Option Nat
  totalAfter : Option Nat

/-- Python truthiness of a count: both `None` and `0` are falsy, which is
exactly how `if other_before and total_before:` treats
`get_inbox_count`'s result. -/
def pyTruthyNat : Option Nat → Bool
  | none => false
  | some n => !(n == 0)

/-- The `results` dict built by `delete_emails`.  The count/progress keys
are only added when all four counts are truthy; `progress_data` keeps the
exact pair (other_before - other_after, total_before) from which the
source computes `round(100 * delta / total_before, 2)` — the rounded float
itself is not modelled. -/
structure DeletionResult where
  proposal_id : String
  backup_file : Option String
  total : Nat
  success : Nat
  failed : Nat
  errors : List ErrEntry
  deleted_ids : List String
  other_before : Option Nat
  other_after : Option Nat
  total_before : Option Nat
  total_after : Option Nat
  progress_data : Option (Int × Nat)
deriving DecidableEq, Repr

/-- What `delete_emails` hands back to its caller: the early
`{'success': 0, 'failed': 0, 'errors': []}` dict for an empty input, the
full results dict, or Python `None` — the function body falls off the end
when the four counts are not all truthy, because the `return results`
statement is nested inside the counts-available branch. -/
inductive DeleteReturn
  | zero
  | result (r : DeletionResult)
  | noneRet
deriving DecidableEq, Repr

/-- Observable externally-visible actions of a `delete_emails` run, in
program order. -/
inductive Event
  | backupWrite (proposal_id : String) (emails : List Email)
  | deleteCall (email_id : String)
deriving DecidableEq, Repr

/-- Everything one `delete_emails` call produces: the returned value, the
value stored into `self.last_deletion` by this call (`none` when the early
empty-input return leaves it untouched), the ordered action trace, and the
backup directory afterwards. -/
structure DelOutput where
  ret : DeleteReturn
  last_deletion : Option DeletionResult
  trace : List Event
  store : BackupManager.BackupStore

/-- The per-email deletion loop of `delete_emails` (Step 2): each outcome
is recorded independently and a failure never aborts the remaining
iterations.  Returns (success, failed, errors, deleted_ids), with the two
lists accumulated in input order. -/
def deleteLoop (outcome : String → DeleteOutcome) :
    List Email → Nat × Nat × List ErrEntry × List String
  | [] => (0, 0, [], [])
  | e :: rest =>
    let subject := pyTake e.subject 50
    let (s, f, errs, ids) := deleteLoop outcome rest
    match outcome e.id with
    | .ok => (s + 1, f, errs, e.id :: ids)
    | .fail => (s, f + 1, (⟨e.id, subject, "Delete failed"⟩ : ErrEntry) :: errs, ids)
    | .raised m => (s, f + 1, (⟨e.id, subject, m⟩ : ErrEntry) :: errs, ids)

/-- `delete_emails(emails, proposal_id, create_backup)`.  `proposal_id` is
the resolved id (the caller's argument, or the timestamp the source
generates when it is absent).  The token refresh and all printing have no
modelled effect.  Over-indentation in the source places `return results`
inside the `if other_before and other_after and total_before and
total_after:` block, so the function returns `None` whenever any count is
missing or zero. -/
def delete_emails (env : MailEnv) (store : BackupManager.BackupStore)
    (emails : List Email) (proposal_id : String) (create_backup : Bool) : DelOutput :=
  if emails = [] then
    ⟨.zero, none, [], store⟩
  else
    let other_before := env.otherBefore
    let total_before := env.totalBefore
    -- Step 1: create backup (before any delete call)
    let backupStep :=
      if create_backup then
        let fs := BackupManager.create_backup store emails proposal_id
        (some fs.1, fs.2)
      else ((none : Option String), store)
    -- Step 2: delete emails one by one
    let loopRes := deleteLoop env.outcome emails
    -- Step 3: counts after deletion
    let other_after := env.otherAfter
    let total_after := env.totalAfter
    let statsOk := pyTruthyNat other_before && pyTruthyNat other_after &&
      pyTruthyNat total_before && pyTruthyNat total_after
    let results : DeletionResult :=
      { proposal_id := proposal_id
        backup_file := backupStep.1
        total := emails.length
        success := loopRes.1
        failed := loopRes.2.1
        errors := loopRes.2.2.1
        deleted_ids := loopRes.2.2.2
        other_before := if statsOk then other_before else none
        other_after := if statsOk then other_after else none
        total_before := if statsOk then total_before else none
        total_after := if statsOk then total_after else none
        progress_data :=
          if statsOk then
            some (((other_before.getD 0 : Nat) : Int) - ((other_after.getD 0 : Nat) : Int),
              total_before.getD 0)
          else none }
    let trace :=
      (if create_backup then [Event.backupWrite proposal_id emails] else []) ++
        emails.map (fun e => Event.deleteCall e.id)
    ⟨if statsOk then .result results else .noneRet, some results, trace, backupStep.2⟩

end DeletionManager

/-! ### Fixtures shared by several witness theorems -/

def sampleEmail1 : Email :=
  ⟨"id1", "Test Email 1 - Safe to delete", "test@example.com", "Test",
   "Test", false, true, some 0, none⟩

def sampleEmail2 : Email :=
  ⟨"id2", "Weekly Newsletter - Tech Updates", "news@techcrunch.com", "TechCrunch",
   "Top stories this week. Unsubscribe anytime.", false, false, some 0, none⟩

def sampleEmail3 : Email :=
  ⟨"id3", "Meeting tomorrow at 2pm", "colleague@work.com", "Sarah",
   "See you tomorrow.", false, true, some 795, none⟩

/-- A mail environment in which every delete call succeeds and all four
counts are available. -/
def envAllOk : DeletionManager.MailEnv :=
  ⟨fun _ => .ok, some 1250, some 5000, some 1247, some 5000⟩

/-- A mail environment in which deletes succeed but no count is available. -/
def envNoCounts : DeletionManager.MailEnv :=
  ⟨fun _ => .ok, none, none, none, none⟩

/-- A mail environment in which exactly the email with id `id2` fails. -/
def envFailId2 : DeletionManager.MailEnv :=
  ⟨fun i => if i == "id2" then .fail else .ok, some 10, some 20, some 9, some 20⟩

/-! ### Facts about the deletion loop -/

open DeletionManager in
/-- When every outcome is a success the loop counts them all and collects
every id. -/
theorem deleteLoop_all_ok (outcome : String → DeleteOutcome) (l : List Email)
    (h : ∀ e ∈ l, outcome e.id = .ok) :
    deleteLoop outcome l = (l.length, 0, [], l.map (fun e => e.id)) := by
  induction l with
  | nil => rfl
  | cons e rest ih =>
    have he : outcome e.id = .ok := h e (by simp)
    have hr : ∀ x ∈ rest, outcome x.id = .ok := fun x hx => h x (by simp [hx])
    simp [deleteLoop, ih hr, he]

open DeletionManager in
/-- When exactly one listed email's delete call fails (returning `False`),
the loop reports all the others as successes and exactly one error entry
carrying that email's id and truncated subject. -/
theorem deleteLoop_one_fail (outcome : String → DeleteOutcome)
    (pre post : List Email) (ek : Email)
    (hpre : ∀ e ∈ pre, outcome e.id = .ok)
    (hpost : ∀ e ∈ post, outcome e.id = .ok)
    (hk : outcome ek.id = .fail) :
    deleteLoop outcome (pre ++ ek :: post) =
      (pre.length + post.length, 1,
       [⟨ek.id, pyTake ek.subject 50, "Delete failed"⟩],
       pre.map (fun e => e.id) ++ post.map (fun e => e.id)) := by
  induction pre with
  | nil =>
    simp only [List.nil_append, List.length_nil, Nat.zero_add, List.map_nil]
    simp [deleteLoop, deleteLoop_all_ok outcome post hpost, hk]
  | cons e pre' ih =>
    have he : outcome e.id = .ok := hpre e (by simp)
    have hp' : ∀ x ∈ pre', outcome x.id = .ok := fun x hx => hpre x (by simp [hx])
    simp [deleteLoop, ih hp', he, Prod.ext_iff]
    omega

open DeletionManager in
/-- The loop's counters always reconcile: successes plus failures equal the
input length, one error entry per failure, one recorded id per success. -/
theorem deleteLoop_counts (outcome : String → DeleteOutcome) (l : List Email) :
    (deleteLoop outcome l).1 + (deleteLoop outcome l).2.1 = l.length ∧
    (deleteLoop outcome l).2.2.1.length = (deleteLoop outcome l).2.1 ∧
    (deleteLoop outcome l).2.2.2.length = (deleteLoop outcome l).1 := by
  induction l with
  | nil => simp [deleteLoop]
  | cons e rest ih =>
    rcases hrec : deleteLoop outcome rest with ⟨s, f, errs, ids⟩
    rw [hrec] at ih
    rcases ho : outcome e.id with _ | _ | m <;>
      simp_all [deleteLoop, hrec, ho] <;> omega

/-! ### Claim theorems for the deletion executor -/

open DeletionManager in
/-- C1: for every non-empty email list, `delete_emails` with
`create_backup = true` writes the backup record for the full input set
before issuing any delete-by-id call (the trace starts with the backup
write and every later event is a delete call), and the backup is readable
under the proposal id afterwards.  With `create_backup = false` — the only
way the caller can disable it — no backup event would appear, so deletion
never proceeds without a backup unless explicitly disabled. -/
theorem backup_written_before_any_delete (env : MailEnv)
    (store : BackupManager.BackupStore) (emails : List Email) (pid : String)
    (h : emails ≠ []) :
    (delete_emails env store emails pid true).trace =
      Event.backupWrite pid emails :: emails.map (fun e => Event.deleteCall e.id) ∧
    BackupManager.get_backup (delete_emails env store emails pid true).store pid =
      some ⟨pid, emails.length, emails.map BackupManager.backupEntryOf⟩ := by
  constructor <;>
    simp [delete_emails, h, BackupManager.create_backup, BackupManager.get_backup,
      List.lookup]

/-- Witness for C1 at a concrete input. -/
theorem backup_written_before_any_delete_check :
    ([sampleEmail1] ≠ ([] : List Email)) ∧
    ((DeletionManager.delete_emails envAllOk [] [sampleEmail1] "p1" true).trace =
        DeletionManager.Event.backupWrite "p1" [sampleEmail1] ::
          [sampleEmail1].map (fun e => DeletionManager.Event.deleteCall e.id) ∧
      BackupManager.get_backup
          (DeletionManager.delete_emails envAllOk [] [sampleEmail1] "p1" true).store "p1" =
        some ⟨"p1", [sampleEmail1].length, [sampleEmail1].map BackupManager.backupEntryOf⟩) :=
  ⟨by decide, backup_written_before_any_delete envAllOk [] [sampleEmail1] "p1" (by decide)⟩

open DeletionManager in
/-- C4 (code evidence): when the mailbox counts are unavailable,
`delete_emails` builds and stores the full results dict but returns Python
`None` — the `return results` statement sits inside the counts-available
branch — whereas with all counts available it does return the results
dict. -/
theorem counts_unavailable_returns_none :
    (delete_emails envNoCounts [] [sampleEmail1] "p1" true).ret = DeleteReturn.noneRet ∧
    (delete_emails envNoCounts [] [sampleEmail1] "p1" true).last_deletion =
      some { proposal_id := "p1", backup_file := some "email_backups/backup_p1.json",
             total := 1, success := 1, failed := 0, errors := [], deleted_ids := ["id1"],
             other_before := none, other_after := none, total_before := none,
             total_after := none, progress_data := none } ∧
    (delete_emails envAllOk [] [sampleEmail1] "p1" true).ret ≠ DeleteReturn.noneRet := by
  refine ⟨rfl, rfl, by decide⟩

open DeletionManager in
/-- C5: when exactly one email's delete call fails and every other call
succeeds, the whole list is still processed and the stored result reports
`success = N - 1`, `failed = 1`, and exactly one error entry carrying the
failing email's id and (truncated) subject. -/
theorem partial_failure_reported (env : MailEnv) (store : BackupManager.BackupStore)
    (pid : String) (cb : Bool) (pre post : List Email) (ek : Email)
    (hpre : ∀ e ∈ pre, env.outcome e.id = .ok)
    (hpost : ∀ e ∈ post, env.outcome e.id = .ok)
    (hk : env.outcome ek.id = .fail) :
    ∃ r, (delete_emails env store (pre ++ ek :: post) pid cb).last_deletion = some r ∧
      r.total = pre.length + post.length + 1 ∧
      r.success = pre.length + post.length ∧
      r.failed = 1 ∧
      r.errors = [⟨ek.id, pyTake ek.subject 50, "Delete failed"⟩] := by
  have hne : pre ++ ek :: post ≠ [] := by simp
  have hloop := deleteLoop_one_fail env.outcome pre post ek hpre hpost hk
  simp [delete_emails, hne, hloop]
  omega

/-- Witness for C5 at a concrete input: three emails of which exactly the
second one fails. -/
theorem partial_failure_reported_check :
    (∀ e ∈ [sampleEmail1], envFailId2.outcome e.id = .ok) ∧
    (∀ e ∈ [sampleEmail3], envFailId2.outcome e.id = .ok) ∧
    envFailId2.outcome sampleEmail2.id = .fail ∧
    (∃ r, (DeletionManager.delete_emails envFailId2 []
            ([sampleEmail1] ++ sampleEmail2 :: [sampleEmail3]) "p5" true).last_deletion =
          some r ∧
        r.total = 3 ∧ r.success = 2 ∧ r.failed = 1 ∧
        r.errors = [⟨sampleEmail2.id, pyTake sampleEmail2.subject 50, "Delete failed"⟩]) :=
  ⟨by decide, by decide, by decide,
   partial_failure_reported envFailId2 [] "p5" true [sampleEmail1] [sampleEmail3]
     sampleEmail2 (by decide) (by decide) (by decide)⟩

open DeletionManager in
/-- C10: for every non-empty input the result record built and stored as
`last_deletion` satisfies `success + failed = total = |emails|`,
`|errors| = failed` and `|deleted_ids| = success`. -/
theorem deletion_result_counts (env : MailEnv) (store : BackupManager.BackupStore)
    (emails : List Email) (pid : String) (cb : Bool) (h : emails ≠ []) :
    ∃ r, (delete_emails env store emails pid cb).last_deletion = some r ∧
      r.total = emails.length ∧
      r.success + r.failed = r.total ∧
      r.errors.length = r.failed ∧
      r.deleted_ids.length = r.success := by
  have hc := deleteLoop_counts env.outcome emails
  rcases hrec : deleteLoop env.outcome emails with ⟨s, f, errs, ids⟩
  rw [hrec] at hc
  simp only at hc
  simp [delete_emails, h, hrec]
  exact ⟨hc.1, hc.2.1, hc.2.2⟩

/-- Witness for C10 at a concrete input (one success, one failure). -/
theorem deletion_result_counts_check :
    ([sampleEmail1, sampleEmail2] ≠ ([] : List Email)) ∧
    (∃ r, (DeletionManager.delete_emails envFailId2 [] [sampleEmail1, sampleEmail2]
            "p10" false).last_deletion = some r ∧
      r.total = 2 ∧ r.success + r.failed = r.total ∧ r.errors.length = r.failed ∧
      r.deleted_ids.length = r.success) :=
  ⟨by decide,
   deletion_result_counts envFailId2 [] [sampleEmail1, sampleEmail2] "p10" false (by decide)⟩

/-! ### Claim theorems for the agents and the arbitration step -/

/-- C2: for every email whose sender address passes the configured VIP
allow-list check, the document agent returns preserve/high tagged
`vip_contact` regardless of the keyword tables and of the LLM oracle
(the VIP branch runs before every other check), and arbitration then
yields preserve no matter what the other three agents report. -/
theorem vip_sender_always_preserved (cfg : DocumentPreservationAgent.Cfg)
    (email : Email) (llm : Except String DocAiJson)
    (h : DocumentPreservationAgent.is_vip_sender cfg email.senderAddress = true) :
    ∃ r : DocResult,
      DocumentPreservationAgent.analyze_email cfg email llm = .ok r ∧
      r.should_preserve = true ∧ r.confidence = .high ∧ r.method = "vip_contact" ∧
      ∀ (cls : ClassifierResult) (spam : SpamResult) (unwanted : UnwantedResult),
        (MultiAgentOrchestrator.decision_node r cls spam unwanted).final_decision =
          Decision.preserve := by
  refine ⟨⟨true, .high,
    "🔒 VIP Contact: " ++ email.senderName ++ " (" ++ email.senderAddress ++ ")",
    "vip_contact"⟩, ?_, rfl, rfl, rfl, ?_⟩
  · simp [DocumentPreservationAgent.analyze_email, h]
  · intro cls spam unwanted
    simp [MultiAgentOrchestrator.decision_node]

/-- A VIP configuration and a matching email, plus adversarial verdicts
from the other agents, used as concrete inputs for the C2 witness. -/
def vipCfg : DocumentPreservationAgent.Cfg :=
  ⟨["boss@company.com"], DocumentPreservationAgent.importantKeywordsList,
   DocumentPreservationAgent.importantDomainsList⟩

def vipEmail : Email :=
  ⟨"idv", "Dinner plans tonight?", "Boss@Company.com", "The Boss",
   "What time will you be home?", false, true, some 795, none⟩

def advCls : ClassifierResult := ⟨.newsletter, .high, "adversarial", "pattern_match"⟩

def advSpam : SpamResult := ⟨true, .high, 75, "adversarial", "pattern_detection"⟩

def advUnwanted : UnwantedResult :=
  ⟨true, .high, 80, "adversarial", "pattern_detection",
   ⟨⟨true, false, false, false⟩, 800, true⟩⟩

/-- Witness for C2 at a concrete input: a VIP sender (in mixed case) with
the spam and unwanted agents both firing adversarially. -/
theorem vip_sender_always_preserved_check :
    ∃ r : DocResult,
      DocumentPreservationAgent.analyze_email vipCfg vipEmail (.error "llm down") = .ok r ∧
      r.should_preserve = true ∧ r.confidence = .high ∧ r.method = "vip_contact" ∧
      (MultiAgentOrchestrator.decision_node r advCls advSpam advUnwanted).final_decision =
        Decision.preserve := by
  obtain ⟨r, h1, h2, h3, h4, h5⟩ :=
    vip_sender_always_preserved vipCfg vipEmail (.error "llm down") (by decide)
  exact ⟨r, h1, h2, h3, h4, h5 advCls advSpam advUnwanted⟩

/-- C3: whenever the spam agent reports is-spam, the arbitration decision
is never delete — rule 1 may preserve it, otherwise rule 2 routes it to
review. -/
theorem spam_never_auto_deleted (doc : DocResult) (cls : ClassifierResult)
    (spam : SpamResult) (unwanted : UnwantedResult) (h : spam.is_spam = true) :
    (MultiAgentOrchestrator.decision_node doc cls spam unwanted).final_decision ≠
      Decision.delete := by
  by_cases hd : doc.should_preserve <;>
    simp [MultiAgentOrchestrator.decision_node, hd, h]

/-- Witness for C3 at a concrete input where every other agent would allow
deletion. -/
theorem spam_never_auto_deleted_check :
    (MultiAgentOrchestrator.decision_node ⟨false, .high, "w", "keyword_match"⟩ advCls
        advSpam advUnwanted).final_decision ≠ Decision.delete :=
  spam_never_auto_deleted ⟨false, .high, "w", "keyword_match"⟩ advCls advSpam advUnwanted rfl

/-- C6: on any LLM call or parse failure each agent's AI tier returns its
documented fail-safe default tagged `error_default` instead of propagating
the error — preserve for the document agent, `informational` for the
classifier, `is_spam = (score >= 50)` for the spam agent and
`is_unwanted = (score >= 55)` for the unwanted agent; all four functions
are total, so no LLM failure ever escapes as an exception. -/
theorem llm_failure_yields_error_default (email : Email) (e : String)
    (sind : SpamDetectorAgent.SpamIndicators) (uind : UAIndicators)
    (sscore uscore : Nat) (reasons : List String) :
    DocumentPreservationAgent.ai_classification email (.error e) =
      ⟨true, .low, "Error in classification - preserving to be safe", "error_default"⟩ ∧
    ClassifierAgent.ai_classification email (.error e) =
      ⟨.informational, .low, "Error in classification - defaulted to informational",
       "error_default"⟩ ∧
    SpamDetectorAgent.ai_spam_detection email sind sscore (.error e) =
      ⟨decide (sscore ≥ 50), .low, sscore,
       "Error in AI classification - defaulted based on score (" ++ toString sscore ++ ")",
       "error_default"⟩ ∧
    UnwantedAgent.ai_react_reasoning email uind uscore reasons (.error e) =
      ⟨decide (uscore ≥ 55), .low, uscore,
       "Error in AI reasoning - defaulted based on score (" ++ toString uscore ++ ")",
       "error_default", uind⟩ :=
  ⟨rfl, rfl, rfl, rfl⟩

/-- C7: when rules 1–3 do not fire while both rule 4's condition (unwanted
and not-preserved) and rule 5's condition (some agent at low confidence)
hold, the decision is rule 4's outcome — delete/high when unwanted
confidence is high and the category is newsletter, promotional or
informational, review/medium otherwise — and never rule 5's review/low. -/
theorem unwanted_rule_beats_low_confidence (doc : DocResult) (cls : ClassifierResult)
    (spam : SpamResult) (unwanted : UnwantedResult)
    (h1 : doc.should_preserve = false)
    (h2 : spam.is_spam = false)
    (h3 : cls.category ≠ .urgent) (h4 : cls.category ≠ .personal)
    (h5 : unwanted.is_unwanted = true)
    (_h6 : doc.confidence = .low ∨ cls.confidence = .low ∨
          spam.confidence = .low ∨ unwanted.confidence = .low) :
    (MultiAgentOrchestrator.decision_node doc cls spam unwanted =
      if unwanted.confidence = .high ∧
          (cls.category = .newsletter ∨ cls.category = .promotional ∨
           cls.category = .informational) then
        ⟨.delete, .high,
         ["Unwanted Agent: Old unwanted email (" ++ toString unwanted.unwanted_score ++
          "/100)"]⟩
      else ⟨.review, .medium, ["Unwanted but needs human review"]⟩) ∧
    (MultiAgentOrchestrator.decision_node doc cls spam unwanted).confidence ≠
      Confidence.low := by
  have hmain :
      MultiAgentOrchestrator.decision_node doc cls spam unwanted =
        if unwanted.confidence = .high ∧
            (cls.category = .newsletter ∨ cls.category = .promotional ∨
             cls.category = .informational) then
          ⟨.delete, .high,
           ["Unwanted Agent: Old unwanted email (" ++ toString unwanted.unwanted_score ++
            "/100)"]⟩
        else ⟨.review, .medium, ["Unwanted but needs human review"]⟩ := by
    simp [MultiAgentOrchestrator.decision_node, h1, h2, h3, h4, h5]
  refine ⟨hmain, ?_⟩
  rw [hmain]
  split <;> simp

/-- Witness for C7 at a concrete input: the document agent reports low
confidence (rule 5's condition) while the unwanted agent is high-confidence
on a newsletter (rule 4's condition); rule 4 wins and deletes. -/
theorem unwanted_rule_beats_low_confidence_check :
    (MultiAgentOrchestrator.decision_node ⟨false, .low, "w7", "ai_classification"⟩ advCls
        ⟨false, .high, 10, "w7", "pattern_detection"⟩ advUnwanted =
      if advUnwanted.confidence = .high ∧
          (advCls.category = .newsletter ∨ advCls.category = .promotional ∨
           advCls.category = .informational) then
        ⟨.delete, .high,
         ["Unwanted Agent: Old unwanted email (" ++ toString advUnwanted.unwanted_score ++
          "/100)"]⟩
      else ⟨.review, .medium, ["Unwanted but needs human review"]⟩) ∧
    (MultiAgentOrchestrator.decision_node ⟨false, .low, "w7", "ai_classification"⟩ advCls
        ⟨false, .high, 10, "w7", "pattern_detection"⟩ advUnwanted).confidence ≠
      Confidence.low :=
  unwanted_rule_beats_low_confidence ⟨false, .low, "w7", "ai_classification"⟩ advCls
    ⟨false, .high, 10, "w7", "pattern_detection"⟩ advUnwanted rfl rfl (by decide)
    (by decide) rfl (Or.inl rfl)

/-- C9: an email matching only the newsletter pattern, unread and 800 days
old scores 30 + 40 + 10 = 80 in the pattern tier — no LLM call, whatever
the oracle would answer — so the unwanted agent reports unwanted/high, and
with classifier category newsletter, a not-preserve document verdict and a
not-spam verdict the arbitration deletes it. -/
theorem old_newsletter_pattern_deleted (today : Int) (email : Email)
    (llm : Except String UnwantedAiJson)
    (doc : DocResult) (cls : ClassifierResult) (spam : SpamResult)
    (hp : UnwantedAgent.check_unwanted_patterns email.subject email.bodyPreview =
            ⟨true, false, false, false⟩)
    (hage : UnwantedAgent.calculate_email_age_days today email.receivedDate = 800)
    (hunread : email.isRead = false)
    (hdoc : doc.should_preserve = false)
    (hcls : cls.category = .newsletter)
    (hspam : spam.is_spam = false) :
    (UnwantedAgent.analyze_unwanted today email llm).unwanted_score = 80 ∧
    (UnwantedAgent.analyze_unwanted today email llm).is_unwanted = true ∧
    (UnwantedAgent.analyze_unwanted today email llm).confidence = .high ∧
    (UnwantedAgent.analyze_unwanted today email llm).method = "pattern_detection" ∧
    (MultiAgentOrchestrator.decision_node doc cls spam
        (UnwantedAgent.analyze_unwanted today email llm)).final_decision =
      Decision.delete := by
  have hu : UnwantedAgent.analyze_unwanted today email llm =
      ⟨true, .high, 80,
       joinSep " | "
         ["Newsletter pattern detected",
          "Very old email (" ++ toString (800 : Int) ++ " days / " ++
            toString (Int.fdiv 800 365) ++ " years)",
          "Never opened"],
       "pattern_detection", ⟨⟨true, false, false, false⟩, 800, true⟩⟩ := by
    simp [UnwantedAgent.analyze_unwanted, UnwantedAgent.calculate_unwanted_score,
      hp, hage, hunread]
  refine ⟨?_, ?_, ?_, ?_, ?_⟩ <;>
    simp [hu, MultiAgentOrchestrator.decision_node, hdoc, hcls, hspam]

/-- The email of the C9 scenario: newsletter pattern, unread, received 800
days before "today". -/
def newsletterEmail : Email :=
  ⟨"idn", "Weekly Newsletter - Tech Updates", "news@techcrunch.com", "TechCrunch",
   "Top stories this week. Unsubscribe anytime.", false, false, some 0, none⟩

/-- Witness for C9 at a concrete input (today = day 800, received = day 0). -/
theorem old_newsletter_pattern_deleted_check :
    (UnwantedAgent.analyze_unwanted 800 newsletterEmail (.error "llm down")).unwanted_score
        = 80 ∧
    (UnwantedAgent.analyze_unwanted 800 newsletterEmail (.error "llm down")).is_unwanted
        = true ∧
    (UnwantedAgent.analyze_unwanted 800 newsletterEmail (.error "llm down")).confidence
        = .high ∧
    (UnwantedAgent.analyze_unwanted 800 newsletterEmail (.error "llm down")).method
        = "pattern_detection" ∧
    (MultiAgentOrchestrator.decision_node ⟨false, .high, "w9", "ai_classification"⟩
        ⟨.newsletter, .high, "w9", "pattern_match"⟩
        ⟨false, .high, 10, "w9", "pattern_detection"⟩
        (UnwantedAgent.analyze_unwanted 800 newsletterEmail
          (.error "llm down"))).final_decision = Decision.delete :=
  old_newsletter_pattern_deleted 800 newsletterEmail (.error "llm down")
    ⟨false, .high, "w9", "ai_classification"⟩ ⟨.newsletter, .high, "w9", "pattern_match"⟩
    ⟨false, .high, 10, "w9", "pattern_detection"⟩ (by decide) (by decide) rfl rfl rfl rfl

/-- C8 counterexample: the `/except` command's index parsing does not
accept ranges — `parse_except_command "/except 1-3,5"` yields `[]`, not
the claimed set 1, 2, 3, 5. -/
theorem except_range_not_supported :
    EmailCleanupBot.parse_except_command "/except 1-3,5" = [] ∧
    EmailCleanupBot.parse_except_command "/except 1-3,5" ≠ [1, 2, 3, 5] := by
  exact ⟨by decide, by decide⟩

/-- C8 amended: only `/delete_only`'s parser (`parse_number_range`) accepts
comma-separated singles and inclusive ranges and returns the deduplicated
sorted set — "1-3,5" and "5,1-3" both give 1, 2, 3, 5; the `/except`
parser accepts only comma- or space-separated single indices, preserves
their order and duplicates, and rejects the whole input when any token is
a range. -/
theorem index_parsing_amended :
    EmailCleanupBot.parse_number_range "/delete_only 1-3,5" = [1, 2, 3, 5] ∧
    EmailCleanupBot.parse_number_range "/delete_only 5,1-3" = [1, 2, 3, 5] ∧
    EmailCleanupBot.parse_except_command "/except 1,3,5" = [1, 3, 5] ∧
    EmailCleanupBot.parse_except_command "/except 5,1,3,3" = [5, 1, 3, 3] := by
  exact ⟨by decide, by decide, by decide, by decide⟩

end EmailCleanup
